import Mathlib

/-!
Verification of the meshcore repository's specified behaviour against a
shallow embedding of its Python source.

Modelling conventions used throughout:
* Python `datetime` values are modelled as natural numbers (epoch order);
  all comparisons in the source are order comparisons, and the ISO-8601
  strings compared by SQLite are order-isomorphic to the instants they
  encode, so a linearly ordered carrier is faithful.
* Python floats are modelled as exact rationals; no claim checked here
  depends on IEEE rounding, only on which branch of the source computes
  the value.
* Python dicts (payloads, packets) are modelled as insertion-ordered
  association lists with first-match lookup, matching dict semantics.
* UUIDs are modelled as naturals; the source only ever compares them for
  equality (and `str()` of distinct UUIDs is distinct).
* `async` plumbing, locks and `asyncio.to_thread` offloading are erased:
  every store operation is modelled as a pure state transformer, which is
  faithful because the source serialises all store operations through a
  single lock (spec section 5).
-/

/-- A JSON-compatible Python value as carried in event payloads,
provenance maps and raw packets (spec section 3: "an open key-value map
(string keys, heterogeneous JSON-compatible values)"). `bytes` appears in
raw packets (`decoded.payload`), never in stored payloads. Floats are
exact rationals (see module comment). -/
inductive PyVal where
  | str (s : String)
  | int (n : Int)
  | float (q : ℚ)
  | bool (b : Bool)
  | none
  | bytes (bs : List Nat)
  | dict (entries : List (String × PyVal))

/-- A Python dict with string keys: insertion-ordered association list. -/
abbrev Payload := List (String × PyVal)

/-- First-match lookup, the semantics of `d[k]` / `d.get(k)` presence. -/
def lookupPayload (p : Payload) (k : String) : Option PyVal :=
  match p with
  | [] => Option.none
  | (k', v) :: rest => if k' = k then some v else lookupPayload rest k

/-- Python `k in d`. -/
def hasKey (p : Payload) (k : String) : Bool :=
  (lookupPayload p k).isSome

/-- Python `d.get(k, dflt)`. -/
def pyGetD (p : Payload) (k : String) (dflt : PyVal) : PyVal :=
  (lookupPayload p k).getD dflt

/-- Python truthiness of a value, as used by `or` and `if` in the source:
`None`, `0`, `0.0`, `False`, empty string/bytes/dict are falsy. -/
def truthy : PyVal → Bool
  | .str s => !s.isEmpty
  | .int n => n != 0
  | .float q => q != 0
  | .bool b => b
  | .none => false
  | .bytes bs => !bs.isEmpty
  | .dict d => !d.isEmpty

/-- Python `x or y` (returns the first operand when truthy). -/
def pyOr (a b : PyVal) : PyVal :=
  if truthy a then a else b

/-- Python `v == n` for an integer literal `n` (numeric cross-type
equality: `1 == 1.0 == True`). -/
def pyEqInt (v : PyVal) (n : Int) : Bool :=
  match v with
  | .int m => m == n
  | .float q => q == (n : ℚ)
  | .bool b => (if b then (1 : Int) else 0) == n
  | _ => false

/-- Python `isinstance(v, (int, float))`: true for ints, floats and also
booleans, because `bool` is a subclass of `int`. -/
def isNumericPy : PyVal → Bool
  | .int _ => true
  | .float _ => true
  | .bool _ => true
  | _ => false

/-- Python `float(v)` on a numeric value (`float(True) = 1.0`). -/
def pyToFloat : PyVal → ℚ
  | .int n => (n : ℚ)
  | .float q => q
  | .bool b => if b then 1 else 0
  | _ => 0

/-- Python `v / 1e7` on a numeric value, as in
`pos_data.get("latitudeI", 0) / 1e7`. A non-numeric operand raises
`TypeError` in the source and is never exercised; it is mapped to `None`
here. -/
def pyDiv1e7 : PyVal → PyVal
  | .int n => .float ((n : ℚ) / 10000000)
  | .float q => .float (q / 10000000)
  | .bool b => .float ((if b then (1 : ℚ) else 0) / 10000000)
  | _ => .none

/-- Identity of an event (`EventId`): a 128-bit random identifier,
modelled as a natural. -/
structure EventId where
  value : Nat
  deriving DecidableEq, Repr

/-- Identity of a mesh node (`NodeId`). -/
structure NodeId where
  value : String
  deriving DecidableEq, Repr

/-- The domain `MeshEvent` model (src/meshcore/domain/models.py). -/
structure MeshEvent where
  event_id : EventId
  node_id : NodeId
  event_type : String
  timestamp : Nat
  ingested_at : Nat
  payload : Payload
  provenance : Payload

/-- The domain `NodeState` aggregate (src/meshcore/domain/models.py).
`last_text` is `str | None` in the pydantic model. -/
structure NodeState where
  node_id : NodeId
  last_seen : Nat
  first_seen : Nat
  event_count : Int
  last_telemetry : Option Payload
  last_position : Option Payload
  last_text : Option String

/-- Escape one character per Python `json.dumps` defaults (ensure_ascii):
quote and backslash escaped, control and non-ASCII characters as
`\uXXXX`. -/
def jsonEscapeChar (c : Char) : String :=
  if c = '"' then "\\\""
  else if c = '\\' then "\\\\"
  else if c = '\n' then "\\n"
  else if c = '\r' then "\\r"
  else if c = '\t' then "\\t"
  else if c.toNat < 32 || c.toNat > 126 then
    "\\u" ++ (Nat.toDigits 16 c.toNat).asString.leftpad 4 '0'
  else String.singleton c

/-- Escape a string per Python `json.dumps` defaults. -/
def jsonEscape (s : String) : String :=
  String.join (s.data.map jsonEscapeChar)

/-- Decimal rendering of a modelled float for JSON/`str()` output. Python
renders IEEE floats; this exact-rational rendering is an approximation,
used only inside serialized strings that no verified claim inspects
numerically. -/
def ratRepr (q : ℚ) : String :=
  if q.den = 1 then toString q.num ++ ".0" else toString q.num ++ "/" ++ toString q.den

mutual

/-- Python `json.dumps` of one value (default separators `", "` and
`": "`). `bytes` is not JSON-serializable in Python (raises) and never
reaches a stored payload. -/
def jsonDumpsVal : PyVal → String
  | .str s => "\"" ++ jsonEscape s ++ "\""
  | .int n => toString n
  | .float q => ratRepr q
  | .bool b => if b then "true" else "false"
  | .none => "null"
  | .bytes _ => ""
  | .dict entries => "\x7b" ++ jsonDumpsEntries entries ++ "\x7d"

/-- `json.dumps` of a dict body, comma-separated in insertion order. -/
def jsonDumpsEntries : List (String × PyVal) → String
  | [] => ""
  | [(k, v)] => "\"" ++ jsonEscape k ++ "\": " ++ jsonDumpsVal v
  | (k, v) :: rest =>
      "\"" ++ jsonEscape k ++ "\": " ++ jsonDumpsVal v ++ ", " ++ jsonDumpsEntries rest

end

/-- ASCII lower-casing of one character, SQLite's folding for `LIKE`. -/
def asciiLowerChar (c : Char) : Char :=
  if 'A' ≤ c ∧ c ≤ 'Z' then Char.ofNat (c.toNat + 32) else c

/-- ASCII lower-casing of a string (SQLite `LIKE` folds only A-Z). -/
def asciiLower (s : String) : String :=
  List.asString (s.data.map asciiLowerChar)

/-- Does `needle` begin `hay`? -/
def leadsWith : List Char → List Char → Bool
  | [], _ => true
  | _ :: _, [] => false
  | a :: as, b :: bs => a == b && leadsWith as bs

/-- Does `needle` occur contiguously inside `hay`? -/
def containsSeq (needle : List Char) : List Char → Bool
  | [] => needle.isEmpty
  | b :: bs => leadsWith needle (b :: bs) || containsSeq needle bs

/-- Case-sensitive substring containment. -/
def strContains (hay needle : String) : Bool :=
  containsSeq needle.data hay.data

/-- SQLite `column LIKE '%term%'`: ASCII-case-insensitive substring
containment. Faithful whenever `term` holds no `%`/`_` wildcard, true of
every search term exercised here. -/
def sqliteLikeContains (term hay : String) : Bool :=
  strContains (asciiLower hay) (asciiLower term)

/-- The in-memory event store's state: ordered event list plus the set of
seen event ids (src/meshcore/adapters/storage/memory.py). -/
structure InMemoryEventStore where
  events : List MeshEvent
  event_ids : List Nat

namespace InMemoryEventStore

/-- A freshly constructed store. -/
def empty : InMemoryEventStore := ⟨[], []⟩

/-- `InMemoryEventStore.append`: returns the new store and True when the
event was inserted, False when its id was a duplicate. -/
def append (s : InMemoryEventStore) (event : MeshEvent) :
    InMemoryEventStore × Bool :=
  if s.event_ids.contains event.event_id.value then (s, false)
  else
    ({ events := s.events ++ [event],
       event_ids := event.event_id.value :: s.event_ids }, true)

/-- `InMemoryEventStore.replay`: yields the stored events in insertion
order, skipping those outside the optional `[since, until]` window (both
bounds inclusive: the source skips on strict `<` / `>`). -/
def replay (s : InMemoryEventStore) (since until_ : Option Nat) :
    List MeshEvent :=
  s.events.filter fun event =>
    (match since with
     | Option.none => true
     | some t => !decide (event.timestamp < t)) &&
    (match until_ with
     | Option.none => true
     | some t => !decide (event.timestamp > t))

/-- `InMemoryEventStore.event_exists`. -/
def event_exists (s : InMemoryEventStore) (event_id : Nat) : Bool :=
  s.event_ids.contains event_id

end InMemoryEventStore

/-- One row of the `events` table
(src/meshcore/adapters/storage/sqlite.py). The `payload_json` column
holds `json.dumps(payload)`; the row carries the payload itself and the
column text is recovered by `EventRow.payload_json`, faithful because
`json.loads` inverts `json.dumps` on the stored values. -/
structure EventRow where
  id : Nat
  node_id : String
  event_type : String
  timestamp : Nat
  ingested_at : Nat
  payload : Payload
  provenance : Payload

/-- The text stored in the row's `payload_json` column. -/
def EventRow.payload_json (r : EventRow) : String :=
  jsonDumpsVal (.dict r.payload)

/-- Serialization of a MeshEvent into an `events` row, as performed by
`SqliteEventStore.append`'s INSERT parameters. -/
def eventToRow (event : MeshEvent) : EventRow :=
  { id := event.event_id.value
    node_id := event.node_id.value
    event_type := event.event_type
    timestamp := event.timestamp
    ingested_at := event.ingested_at
    payload := event.payload
    provenance := event.provenance }

/-- Reconstruction of a MeshEvent from a fetched row, as performed by the
row-to-model mapping in `replay`/`query_by_type`/`search_messages`. -/
def rowToEvent (r : EventRow) : MeshEvent :=
  { event_id := ⟨r.id⟩
    node_id := ⟨r.node_id⟩
    event_type := r.event_type
    timestamp := r.timestamp
    ingested_at := r.ingested_at
    payload := r.payload
    provenance := r.provenance }

namespace SqliteEventStore

/-- Stable-enough model of `ORDER BY timestamp ASC`: insertion of one row
into an ascending list. SQLite fixes no order among equal keys; every
claim checked here uses distinct timestamps. -/
def insertAscByTs (r : EventRow) : List EventRow → List EventRow
  | [] => [r]
  | x :: xs =>
      if decide (x.timestamp ≤ r.timestamp) then x :: insertAscByTs r xs
      else r :: x :: xs

/-- `ORDER BY timestamp ASC` as an insertion sort. -/
def orderAscByTs : List EventRow → List EventRow
  | [] => []
  | x :: xs => insertAscByTs x (orderAscByTs xs)

/-- Insertion of one row into a descending list. -/
def insertDescByTs (r : EventRow) : List EventRow → List EventRow
  | [] => [r]
  | x :: xs =>
      if decide (r.timestamp ≤ x.timestamp) then x :: insertDescByTs r xs
      else r :: x :: xs

/-- `ORDER BY timestamp DESC` as an insertion sort. -/
def orderDescByTs : List EventRow → List EventRow
  | [] => []
  | x :: xs => insertDescByTs x (orderDescByTs xs)

/-- `SqliteEventStore.append`: `INSERT OR IGNORE` keyed by `id` — a
duplicate id leaves the table unchanged. The Python method returns
`None`; only the table state is observable. -/
def append (rows : List EventRow) (event : MeshEvent) : List EventRow :=
  if rows.any (fun r => r.id == event.event_id.value) then rows
  else rows ++ [eventToRow event]

/-- `SqliteEventStore.replay`: `timestamp >= since` / `timestamp <= until`
filters (inclusive), `ORDER BY timestamp ASC`, rows decoded back into
events. -/
def replay (rows : List EventRow) (since until_ : Option Nat) :
    List MeshEvent :=
  ((orderAscByTs (rows.filter fun r =>
      (match since with
       | Option.none => true
       | some t => decide (t ≤ r.timestamp)) &&
      (match until_ with
       | Option.none => true
       | some t => decide (r.timestamp ≤ t)))).map rowToEvent)

/-- `SqliteEventStore.event_exists`: `SELECT 1 ... WHERE id = ?`. -/
def event_exists (rows : List EventRow) (event_id : Nat) : Bool :=
  rows.any (fun r => r.id == event_id)

/-- `SqliteEventStore.get_telemetry_series`: telemetry events of one node
since a cutoff (inclusive), ascending, limited. -/
def get_telemetry_series (rows : List EventRow) (node_id : String)
    (since : Nat) (limit : Nat) : List MeshEvent :=
  ((orderAscByTs (rows.filter fun r =>
      r.event_type == "telemetry" && r.node_id == node_id &&
      decide (since ≤ r.timestamp))).take limit).map rowToEvent

/-- `SqliteEventStore.search_messages`: text events whose `payload_json`
column matches `LIKE '%term%'`, most recent first, limited. -/
def search_messages (rows : List EventRow) (search_term : String)
    (limit : Nat) : List MeshEvent :=
  ((orderDescByTs (rows.filter fun r =>
      r.event_type == "text" &&
      sqliteLikeContains search_term r.payload_json)).take limit).map
    rowToEvent

end SqliteEventStore

/-- One row of the `node_states` table
(src/meshcore/adapters/storage/state_sqlite.py). The two `_json` columns
carry the deserialized payloads (round-trip as for `EventRow`). -/
structure StateRow where
  node_id : String
  last_seen : Nat
  first_seen : Nat
  event_count : Int
  last_telemetry_json : Option Payload
  last_position_json : Option Payload
  last_text : Option String

/-- The `json.dumps(x) if x else None` binding used for both snapshot
columns: `None` and the (falsy) empty dict both store SQL NULL. -/
def dumpIfTruthy (o : Option Payload) : Option Payload :=
  match o with
  | some p => if p.isEmpty then Option.none else some p
  | Option.none => Option.none

/-- The INSERT parameter tuple of `SqliteStateStore.upsert_node`. -/
def stateToRow (state : NodeState) : StateRow :=
  { node_id := state.node_id.value
    last_seen := state.last_seen
    first_seen := state.first_seen
    event_count := state.event_count
    last_telemetry_json := dumpIfTruthy state.last_telemetry
    last_position_json := dumpIfTruthy state.last_position
    last_text := state.last_text }

namespace SqliteStateStore

/-- `SqliteStateStore.upsert_node`: `INSERT ... ON CONFLICT(node_id) DO
UPDATE SET` over `last_seen`, `event_count`, both snapshot columns and
`last_text` — `first_seen` is absent from the UPDATE clause, so on
conflict the stored `first_seen` is kept. -/
def upsert_node (rows : List StateRow) (state : NodeState) :
    List StateRow :=
  if rows.any (fun r => r.node_id == state.node_id.value) then
    rows.map fun r =>
      if r.node_id == state.node_id.value then
        { r with
          last_seen := state.last_seen
          event_count := state.event_count
          last_telemetry_json := dumpIfTruthy state.last_telemetry
          last_position_json := dumpIfTruthy state.last_position
          last_text := state.last_text }
      else r
  else rows ++ [stateToRow state]

end SqliteStateStore

/-- `event.payload.get("text")` as bound into `NodeState.last_text`. The
pydantic model types the field `str | None`; a non-string value would
fail validation in the source and is never produced by the translator,
so only string values are observable. -/
def payloadTextField (p : Payload) : Option String :=
  match lookupPayload p "text" with
  | some (.str s) => some s
  | _ => Option.none

namespace StateProjection

/-- `StateProjection._create_state`: the state for a previously unseen
node (src/meshcore/application/state_projection.py lines 23-32). -/
def create_state (event : MeshEvent) : NodeState :=
  { node_id := event.node_id
    last_seen := event.timestamp
    first_seen := event.timestamp
    event_count := 1
    last_telemetry :=
      if event.event_type == "telemetry" then some event.payload
      else Option.none
    last_position :=
      if event.event_type == "position" then some event.payload
      else Option.none
    last_text :=
      if event.event_type == "text" then payloadTextField event.payload
      else Option.none }

/-- `StateProjection._update_state`: overwrite `last_seen`, increment
`event_count`, and replace exactly the snapshot field matching the
event's type (the `if/elif` chain touches at most one of the three). -/
def update_state (state : NodeState) (event : MeshEvent) : NodeState :=
  { state with
    last_seen := event.timestamp
    event_count := state.event_count + 1
    last_telemetry :=
      if event.event_type == "telemetry" then some event.payload
      else state.last_telemetry
    last_position :=
      if event.event_type == "position" then some event.payload
      else state.last_position
    last_text :=
      if event.event_type == "text" then payloadTextField event.payload
      else state.last_text }

/-- `StateProjection.project` after the state-store read: the written
state is `_update_state` when the node was present, `_create_state`
otherwise. -/
def project_state (existing : Option NodeState) (event : MeshEvent) :
    NodeState :=
  match existing with
  | some s => update_state s event
  | Option.none => create_state event

end StateProjection

/-- The ingestion service's running counters
(src/meshcore/application/services.py lines 32-34). -/
structure Counters where
  processed : Nat
  error : Nat
  duplicate : Nat

namespace MeshEventService

/-- The `for attempt in range(self._max_retries)` loop body of
`_process_event_with_retry`, over the remaining attempt indices.
`fails a` abstracts "the append/project step raised on attempt `a`".
Returns whether the event was processed (no final raise) and the list of
backoff sleeps issued, each `retry_delay * (attempt + 1)` — a sleep
happens only when `attempt < max_retries - 1`; the final failed attempt
re-raises instead. An exhausted range without a raise (only possible
with `max_retries = 0`) returns None in Python, i.e. success. -/
def retry_attempts (fails : Nat → Bool) (max_retries : Nat) (d : ℚ) :
    List Nat → List ℚ → Bool × List ℚ
  | [], sleeps => (true, sleeps)
  | a :: rest, sleeps =>
      if fails a then
        if a < max_retries - 1 then
          retry_attempts fails max_retries d rest
            (sleeps ++ [d * ((a : ℚ) + 1)])
        else (false, sleeps)
      else (true, sleeps)

/-- `MeshEventService._process_event_with_retry`: up to `max_retries`
attempts with linear backoff. -/
def process_event_with_retry (fails : Nat → Bool) (max_retries : Nat)
    (d : ℚ) : Bool × List ℚ :=
  retry_attempts fails max_retries d (List.range max_retries) []

/-- One iteration of `MeshEventService.run`'s event loop: the duplicate
pre-check, then persist-with-retry; a raise from the retry wrapper is
caught and counted as one error, a success bumps the processed counter.
A successful pass appends the event to the store (the `fails` attempts
modelled the append raising, so the store is untouched by them). -/
def service_step (fails : Nat → Bool) (max_retries : Nat) (d : ℚ)
    (st : InMemoryEventStore) (c : Counters) (event : MeshEvent) :
    InMemoryEventStore × Counters :=
  if st.event_exists event.event_id.value then
    (st, { c with duplicate := c.duplicate + 1 })
  else if (process_event_with_retry fails max_retries d).1 then
    ((st.append event).1, { c with processed := c.processed + 1 })
  else (st, { c with error := c.error + 1 })

/-- `MeshEventService.run` over a finite prefix of the source's events.
`failsFor i` gives the attempt-failure behaviour of the store while the
`i`-th event is being persisted. -/
def service_run (failsFor : Nat → Nat → Bool) (max_retries : Nat) (d : ℚ) :
    List MeshEvent → Nat → InMemoryEventStore × Counters →
    InMemoryEventStore × Counters
  | [], _, sc => sc
  | event :: rest, i, (st, c) =>
      service_run failsFor max_retries d rest (i + 1)
        (service_step (failsFor i) max_retries d st c event)

end MeshEventService

/-- Coerce a value known to be a mapping to its entries. The source
indexes such values directly (`decoded.get(...)`, `"k" in d`), so a
non-mapping raises there; those paths are never exercised here. -/
def asDict : PyVal → Payload
  | .dict d => d
  | _ => []

mutual

/-- Python `repr()` of a value, as used by `str(decoded)` in the `raw`
fallbacks. Float and bytes rendering are approximations (see `ratRepr`);
no verified claim inspects a `raw` string. -/
def pyRepr : PyVal → String
  | .str s => "'" ++ s ++ "'"
  | .int n => toString n
  | .float q => ratRepr q
  | .bool b => if b then "True" else "False"
  | .none => "None"
  | .bytes bs => "b'" ++ String.join (bs.map (fun b => toString b)) ++ "'"
  | .dict entries => "\x7b" ++ pyReprEntries entries ++ "\x7d"

/-- `repr()` of a dict body. -/
def pyReprEntries : List (String × PyVal) → String
  | [] => ""
  | [(k, v)] => "'" ++ k ++ "': " ++ pyRepr v
  | (k, v) :: rest => "'" ++ k ++ "': " ++ pyRepr v ++ ", " ++ pyReprEntries rest

end

/-- Python `str()`: identity on strings, `repr()` otherwise. -/
def pyStr : PyVal → String
  | .str s => s
  | v => pyRepr v

/-- One byte as two lowercase hex digits, as in Python `bytes.hex()`. -/
def hexByte (b : Nat) : String :=
  (Nat.toDigits 16 (b % 256)).asString.leftpad 2 '0'

/-- Python `bytes.hex()`. -/
def bytesHex (bs : List Nat) : String :=
  String.join (bs.map hexByte)

/-- Is `b` a UTF-8 continuation byte? -/
def isCont (b : Nat) : Bool :=
  decide (0x80 ≤ b) && decide (b ≤ 0xBF)

/-- Strict UTF-8 decoding (as Python `bytes.decode("utf-8")`): rejects
truncated sequences, overlong encodings, surrogates and code points past
0x10FFFF. Fueled recursion; each step consumes at least one byte, so
fuel = length suffices. -/
def utf8Go : Nat → List Nat → Option (List Char)
  | _, [] => some []
  | 0, _ :: _ => Option.none
  | fuel + 1, b :: rest =>
      if b < 0x80 then
        (utf8Go fuel rest).map (fun cs => Char.ofNat b :: cs)
      else if 0xC2 ≤ b ∧ b ≤ 0xDF then
        match rest with
        | b2 :: rest2 =>
            if isCont b2 then
              (utf8Go fuel rest2).map
                (fun cs => Char.ofNat ((b - 0xC0) * 64 + (b2 - 0x80)) :: cs)
            else Option.none
        | [] => Option.none
      else if 0xE0 ≤ b ∧ b ≤ 0xEF then
        match rest with
        | b2 :: b3 :: rest3 =>
            if isCont b2 && isCont b3 then
              let cp := (b - 0xE0) * 4096 + (b2 - 0x80) * 64 + (b3 - 0x80)
              if cp < 0x800 || (0xD800 ≤ cp && cp ≤ 0xDFFF) then Option.none
              else (utf8Go fuel rest3).map (fun cs => Char.ofNat cp :: cs)
            else Option.none
        | _ => Option.none
      else if 0xF0 ≤ b ∧ b ≤ 0xF4 then
        match rest with
        | b2 :: b3 :: b4 :: rest4 =>
            if isCont b2 && isCont b3 && isCont b4 then
              let cp := (b - 0xF0) * 262144 + (b2 - 0x80) * 4096 +
                (b3 - 0x80) * 64 + (b4 - 0x80)
              if cp < 0x10000 || cp > 0x10FFFF then Option.none
              else (utf8Go fuel rest4).map (fun cs => Char.ofNat cp :: cs)
            else Option.none
        | _ => Option.none
      else Option.none

/-- `bytes.decode("utf-8")`, absent on decode failure. -/
def utf8Decode (bs : List Nat) : Option String :=
  (utf8Go bs.length bs).map List.asString

/-- The `_event_type_from_port` defaultdict
(src/meshcore/adapters/meshtastic/translate.py lines 13-17): ports 1, 3,
4, 5 map to text/telemetry/position/node_info, anything else (including
the `""` default portnum) to "unknown". Python dict keys compare with
numeric cross-type equality, hence `pyEqInt`. -/
def event_type_from_port (portnum : PyVal) : String :=
  if pyEqInt portnum 1 then "text"
  else if pyEqInt portnum 3 then "telemetry"
  else if pyEqInt portnum 4 then "position"
  else if pyEqInt portnum 5 then "node_info"
  else "unknown"

/-- `_decode_telemetry`: device, environment and power metric groups,
then the top-level-key fallback scan, then the `raw` fallback. -/
def decode_telemetry (decoded : Payload) : Payload :=
  let dm := pyGetD decoded "deviceMetrics" (pyGetD decoded "device" (.dict []))
  let dmE := asDict dm
  let t1 : Payload :=
    if truthy dm then
      (if hasKey dmE "batteryLevel" then
        [("battery_level", pyGetD dmE "batteryLevel" .none)] else []) ++
      (if hasKey dmE "voltage" then
        [("voltage", pyGetD dmE "voltage" .none)] else []) ++
      (if hasKey dmE "channelUtilization" then
        [("channel_utilization", pyGetD dmE "channelUtilization" .none)]
       else []) ++
      (if hasKey dmE "airUtilTx" then
        [("air_util_tx", pyGetD dmE "airUtilTx" .none)] else [])
    else []
  let em := pyGetD decoded "environmentMetrics"
    (pyGetD decoded "environment" (.dict []))
  let emE := asDict em
  let t2 : Payload :=
    if truthy em then
      (if hasKey emE "temperature" then
        [("temperature", pyGetD emE "temperature" .none)] else []) ++
      (if hasKey emE "relativeHumidity" then
        [("humidity", pyGetD emE "relativeHumidity" .none)] else []) ++
      (if hasKey emE "barometricPressure" then
        [("pressure", pyGetD emE "barometricPressure" .none)] else [])
    else []
  let pm := pyGetD decoded "powerMetrics" (pyGetD decoded "power" (.dict []))
  let pmE := asDict pm
  let t3 : Payload :=
    if truthy pm then
      (if hasKey pmE "ch1Voltage" then
        [("ch1_voltage", pyGetD pmE "ch1Voltage" .none)] else []) ++
      (if hasKey pmE "ch1Current" then
        [("ch1_current", pyGetD pmE "ch1Current" .none)] else [])
    else []
  let telemetry := t1 ++ t2 ++ t3
  let telemetry :=
    if telemetry.isEmpty then
      (if hasKey decoded "battery_level" then
        [("battery_level", pyGetD decoded "battery_level" .none)] else []) ++
      (if hasKey decoded "voltage" then
        [("voltage", pyGetD decoded "voltage" .none)] else []) ++
      (if hasKey decoded "temperature" then
        [("temperature", pyGetD decoded "temperature" .none)] else []) ++
      (if hasKey decoded "channelUtilization" then
        [("channelUtilization", pyGetD decoded "channelUtilization" .none)]
       else [])
    else telemetry
  if telemetry.isEmpty then [("raw", .str (pyRepr (.dict decoded)))]
  else telemetry

/-- `_decode_position` (src/meshcore/adapters/meshtastic/translate.py
lines 122-139). `pos_data = decoded.get("position", decoded)`; the guard
is key presence of `latitude` or `latitudeI`, but the extracted values
use Python `or` — so a falsy (zero or None) `latitude`/`longitude` falls
back to the integer microdegree field divided by 1e7, defaulting to 0.
A non-mapping `"position"` value would raise in the source on the `in`
test and is never exercised. -/
def decode_position (decoded : Payload) : Payload :=
  let pos_data :=
    match lookupPayload decoded "position" with
    | some (.dict d) => d
    | some _ => decoded
    | Option.none => decoded
  let position : Payload :=
    if hasKey pos_data "latitude" || hasKey pos_data "latitudeI" then
      let lat := pyOr (pyGetD pos_data "latitude" .none)
        (pyDiv1e7 (pyGetD pos_data "latitudeI" (.int 0)))
      let lon := pyOr (pyGetD pos_data "longitude" .none)
        (pyDiv1e7 (pyGetD pos_data "longitudeI" (.int 0)))
      [("latitude", lat), ("longitude", lon)] ++
      (if hasKey pos_data "altitude" then
        [("altitude", pyGetD pos_data "altitude" .none)] else []) ++
      (if hasKey pos_data "groundSpeed" then
        [("speed", pyGetD pos_data "groundSpeed" .none)] else []) ++
      (if hasKey pos_data "groundTrack" then
        [("heading", pyGetD pos_data "groundTrack" .none)] else []) ++
      (if hasKey pos_data "satsInView" then
        [("satellites", pyGetD pos_data "satsInView" .none)] else [])
    else []
  if position.isEmpty then [("raw", .str (pyRepr (.dict decoded)))]
  else position

/-- `_decode_node_info`: the five `user` fields, then the `raw`
fallback. -/
def decode_node_info (decoded : Payload) : Payload :=
  let user := pyGetD decoded "user" (.dict [])
  let u := asDict user
  let node_info : Payload :=
    if truthy user then
      (if hasKey u "id" then [("node_id", pyGetD u "id" .none)] else []) ++
      (if hasKey u "longName" then
        [("long_name", pyGetD u "longName" .none)] else []) ++
      (if hasKey u "shortName" then
        [("short_name", pyGetD u "shortName" .none)] else []) ++
      (if hasKey u "macaddr" then
        [("mac_address", pyGetD u "macaddr" .none)] else []) ++
      (if hasKey u "hwModel" then
        [("hardware_model", pyGetD u "hwModel" .none)] else [])
    else []
  if node_info.isEmpty then [("raw", .str (pyRepr (.dict decoded)))]
  else node_info

/-- `_decode_payload`: dispatch on the port number. -/
def decode_payload (portnum : PyVal) (decoded : Payload) : Payload :=
  if pyEqInt portnum 1 then
    match pyGetD decoded "payload" (.bytes []) with
    | .bytes bs =>
        match utf8Decode bs with
        | some s => [("text", .str s)]
        | Option.none => [("raw", .str (bytesHex bs))]
    | .str s => [("text", .str s)]
    | _ => []
  else if pyEqInt portnum 3 then decode_telemetry decoded
  else if pyEqInt portnum 4 then decode_position decoded
  else if pyEqInt portnum 5 then decode_node_info decoded
  else
    match pyGetD decoded "payload" (.bytes []) with
    | .bytes bs => [("raw", .str (bytesHex bs))]
    | _ => []

/-- `_packet_timestamp`'s `datetime.fromtimestamp(ts)`: the instant a
numeric Unix timestamp denotes (floats truncated toward zero here; the
radio library sends integers). A non-numeric `rxTime` raises in the
source; unexercised. -/
def pyTsToNat : PyVal → Nat
  | .int n => n.toNat
  | .float q => q.floor.toNat
  | _ => 0

/-- `_packet_timestamp`: the packet's truthy `rxTime`, else the current
instant — note the truthiness test, so `rxTime = 0` also falls back to
`now`. -/
def packet_timestamp (now : Nat) (packet : Payload) : Nat :=
  let ts := pyGetD packet "rxTime" .none
  if truthy ts then pyTsToNat ts else now

/-- `translate_packet`, with the two effects (fresh UUID, current
instant) passed explicitly. Returns no event when the `decoded` section
is missing/falsy or the decoded payload is empty. A non-mapping
`decoded` value would raise in the source; unexercised, modelled as the
empty dict. -/
def translate_packet (freshId : Nat) (now : Nat) (packet : Payload) :
    Option MeshEvent :=
  let decodedV := pyGetD packet "decoded" (.dict [])
  if !truthy decodedV then Option.none
  else
    let decoded := asDict decodedV
    let portnum := pyGetD decoded "portnum" (.str "")
    let event_type := event_type_from_port portnum
    let payload := decode_payload portnum decoded
    if payload.isEmpty then Option.none
    else some
      { event_id := ⟨freshId⟩
        node_id := ⟨pyStr (pyGetD packet "from" (.str ""))⟩
        event_type := event_type
        timestamp := packet_timestamp now packet
        ingested_at := now
        payload := payload
        provenance :=
          [("source", .str "meshtastic"), ("portnum", portnum),
           ("hp_limit", pyGetD packet "hp_limit" .none),
           ("rx_snr", pyGetD packet "rxSnr" .none),
           ("rx_rssi", pyGetD packet "rxRssi" .none)] }

/-- A time-series data point
(src/meshcore/application/telemetry_service.py). -/
structure DataPoint where
  timestamp : Nat
  value : ℚ
  deriving DecidableEq, Repr

namespace TelemetryQueryService

/-- The `metrics` dict update of `get_all_metrics`: create the key's list
on first sight, then append (Python dicts preserve insertion order). -/
def addMetricPoint (m : List (String × List DataPoint)) (key : String)
    (dp : DataPoint) : List (String × List DataPoint) :=
  if m.any (fun kv => kv.1 == key) then
    m.map fun kv => if kv.1 == key then (kv.1, kv.2 ++ [dp]) else kv
  else m ++ [(key, [dp])]

/-- The inner loop of `get_all_metrics` over one event's payload items:
every `isinstance(value, (int, float))` entry — which includes booleans —
contributes `float(value)` at the event's timestamp. -/
def scanEventMetrics (m : List (String × List DataPoint))
    (event : MeshEvent) : List (String × List DataPoint) :=
  event.payload.foldl
    (fun acc kv =>
      if isNumericPy kv.2 then
        addMetricPoint acc kv.1 ⟨event.timestamp, pyToFloat kv.2⟩
      else acc)
    m

/-- `TelemetryQueryService.get_all_metrics` over an event store's rows:
scan the node's telemetry series (limit 1000) and group every
numeric-valued payload key into its own series. -/
def get_all_metrics (rows : List EventRow) (node_id : String)
    (since : Nat) : List (String × List DataPoint) :=
  (SqliteEventStore.get_telemetry_series rows node_id since 1000).foldl
    scanEventMetrics []

end TelemetryQueryService

/-- The `Message` view model
(src/meshcore/application/message_service.py lines 10-20): payload
fields with their `get` defaults. -/
structure Message where
  id : Nat
  from_node : String
  text : PyVal
  timestamp : Nat
  to_node : PyVal
  channel : PyVal
  encrypted : PyVal

/-- `Message.__init__` from a MeshEvent. -/
def Message.ofEvent (event : MeshEvent) : Message :=
  { id := event.event_id.value
    from_node := event.node_id.value
    text := pyGetD event.payload "text" (.str "")
    timestamp := event.timestamp
    to_node := pyGetD event.payload "to" .none
    channel := pyGetD event.payload "channel" (.int 0)
    encrypted := pyGetD event.payload "encrypted" (.bool false) }

namespace MessageQueryService

/-- `MessageQueryService.search_messages`: delegate to the store and wrap
each event in the `Message` view. -/
def search_messages (rows : List EventRow) (query : String)
    (limit : Nat) : List Message :=
  (SqliteEventStore.search_messages rows query limit).map Message.ofEvent

end MessageQueryService

/-- Modelled from the specification's words, for comparison with the
source's matching: "substring match (case-sensitive...) over text
payloads" — does `hay` contain `query` as a case-sensitive substring? -/
def specContainsCaseSensitive (query hay : String) : Bool :=
  strContains hay query

/-- C1: for both event-store implementations, appending an event and then
a second event carrying the same event_id leaves exactly one stored
record for that id; the second append reports not-inserted (in-memory)
or is a no-op (SQLite `INSERT OR IGNORE`), and `event_exists` is true
for that id afterwards. -/
theorem C1_dedup_idempotent
    (e e' : MeshEvent) (st : InMemoryEventStore) (rows : List EventRow)
    (hid : e'.event_id = e.event_id)
    (hmem : st.event_ids.contains e.event_id.value = false)
    (hcnt : st.events.countP
      (fun x => x.event_id.value == e.event_id.value) = 0)
    (hrows : (rows.any fun r => r.id == e.event_id.value) = false) :
    ((st.append e).2 = true) ∧
    (((st.append e).1.append e').2 = false) ∧
    (((st.append e).1.append e').1.events.countP
      (fun x => x.event_id.value == e.event_id.value) = 1) ∧
    (((st.append e).1.append e').1.event_exists e.event_id.value = true) ∧
    (SqliteEventStore.append (SqliteEventStore.append rows e) e' =
      SqliteEventStore.append rows e) ∧
    ((SqliteEventStore.append (SqliteEventStore.append rows e) e').countP
      (fun r => r.id == e.event_id.value) = 1) ∧
    (SqliteEventStore.event_exists
      (SqliteEventStore.append (SqliteEventStore.append rows e) e')
      e.event_id.value = true) := by
  have hid' : e'.event_id.value = e.event_id.value := by rw [hid]
  have hmem' : e.event_id.value ∉ st.event_ids := by simpa using hmem
  have hcnt' : (rows.countP fun r => r.id == e.event_id.value) = 0 := by
    rw [List.countP_eq_zero]
    intro a ha
    have := List.any_eq_false.mp hrows a ha
    simpa using this
  refine ⟨?_, ?_, ?_, ?_, ?_, ?_, ?_⟩
  · simp [InMemoryEventStore.append, hmem']
  · simp [InMemoryEventStore.append, hmem', hid']
  · simp [InMemoryEventStore.append, hmem', hid', List.countP_append, hcnt]
  · simp [InMemoryEventStore.append, InMemoryEventStore.event_exists, hmem',
      hid']
  · simp [SqliteEventStore.append, hrows, hid', eventToRow]
  · simp [SqliteEventStore.append, hrows, hid', List.countP_append, hcnt',
      eventToRow]
  · simp [SqliteEventStore.append, SqliteEventStore.event_exists, hrows,
      hid', eventToRow]

/-- Witness for C1 at concrete inputs: two events sharing event_id 1,
starting from empty stores. -/
theorem C1_dedup_idempotent_witness :
    ((InMemoryEventStore.empty.append
        ⟨⟨1⟩, ⟨"n1"⟩, "text", 5, 6, [], []⟩).2 = true) ∧
    (((InMemoryEventStore.empty.append
        ⟨⟨1⟩, ⟨"n1"⟩, "text", 5, 6, [], []⟩).1.append
        ⟨⟨1⟩, ⟨"n2"⟩, "position", 7, 8, [], []⟩).2 = false) ∧
    ((((InMemoryEventStore.empty.append
        ⟨⟨1⟩, ⟨"n1"⟩, "text", 5, 6, [], []⟩).1.append
        ⟨⟨1⟩, ⟨"n2"⟩, "position", 7, 8, [], []⟩).1.events.countP
      (fun x => x.event_id.value ==
        (⟨⟨1⟩, ⟨"n1"⟩, "text", 5, 6, [], []⟩ : MeshEvent).event_id.value)) =
      1) ∧
    (((InMemoryEventStore.empty.append
        ⟨⟨1⟩, ⟨"n1"⟩, "text", 5, 6, [], []⟩).1.append
        ⟨⟨1⟩, ⟨"n2"⟩, "position", 7, 8, [], []⟩).1.event_exists 1 = true) ∧
    (SqliteEventStore.append
      (SqliteEventStore.append [] ⟨⟨1⟩, ⟨"n1"⟩, "text", 5, 6, [], []⟩)
      ⟨⟨1⟩, ⟨"n2"⟩, "position", 7, 8, [], []⟩ =
      SqliteEventStore.append [] ⟨⟨1⟩, ⟨"n1"⟩, "text", 5, 6, [], []⟩) ∧
    ((SqliteEventStore.append
      (SqliteEventStore.append [] ⟨⟨1⟩, ⟨"n1"⟩, "text", 5, 6, [], []⟩)
      ⟨⟨1⟩, ⟨"n2"⟩, "position", 7, 8, [], []⟩).countP
      (fun r => r.id ==
        (⟨⟨1⟩, ⟨"n1"⟩, "text", 5, 6, [], []⟩ : MeshEvent).event_id.value) =
      1) ∧
    (SqliteEventStore.event_exists
      (SqliteEventStore.append
        (SqliteEventStore.append [] ⟨⟨1⟩, ⟨"n1"⟩, "text", 5, 6, [], []⟩)
        ⟨⟨1⟩, ⟨"n2"⟩, "position", 7, 8, [], []⟩) 1 = true) :=
  C1_dedup_idempotent ⟨⟨1⟩, ⟨"n1"⟩, "text", 5, 6, [], []⟩
    ⟨⟨1⟩, ⟨"n2"⟩, "position", 7, 8, [], []⟩ InMemoryEventStore.empty []
    rfl rfl rfl rfl

/-- Row decoding inverts row encoding (structure eta). -/
theorem rowToEvent_eventToRow (e : MeshEvent) : rowToEvent (eventToRow e) = e := rfl

/-- An in-memory store holding three events, loaded through `append`. -/
def memStore3 (e1 e2 e3 : MeshEvent) : InMemoryEventStore :=
  (((InMemoryEventStore.empty.append e1).1.append e2).1.append e3).1

/-- A SQLite `events` table holding three events, loaded through
`append`. -/
def sqliteRows3 (e1 e2 e3 : MeshEvent) : List EventRow :=
  SqliteEventStore.append
    (SqliteEventStore.append (SqliteEventStore.append [] e1) e2) e3

/-- C2: for both stores holding events at timestamps T1 < T2 < T3 for one
node, `replay(since=T2, until=None)` yields exactly the T2 and T3 events
in ascending timestamp order, and `replay(since=None, until=T2)` yields
the T1 and T2 events — both window bounds are inclusive. -/
theorem C2_replay_window (e1 e2 e3 : MeshEvent)
    (hn2 : e2.node_id = e1.node_id) (hn3 : e3.node_id = e1.node_id)
    (h12 : e1.timestamp < e2.timestamp) (h23 : e2.timestamp < e3.timestamp)
    (hd21 : e2.event_id.value ≠ e1.event_id.value)
    (hd31 : e3.event_id.value ≠ e1.event_id.value)
    (hd32 : e3.event_id.value ≠ e2.event_id.value) :
    ((memStore3 e1 e2 e3).replay (some e2.timestamp) Option.none =
      [e2, e3]) ∧
    ((memStore3 e1 e2 e3).replay Option.none (some e2.timestamp) =
      [e1, e2]) ∧
    (SqliteEventStore.replay (sqliteRows3 e1 e2 e3) (some e2.timestamp)
      Option.none = [e2, e3]) ∧
    (SqliteEventStore.replay (sqliteRows3 e1 e2 e3) Option.none
      (some e2.timestamp) = [e1, e2]) := by
  have hm : memStore3 e1 e2 e3 =
      ⟨[e1, e2, e3],
       [e3.event_id.value, e2.event_id.value, e1.event_id.value]⟩ := by
    simp [memStore3, InMemoryEventStore.empty, InMemoryEventStore.append,
      hd21, hd31, hd32]
  have hr : sqliteRows3 e1 e2 e3 =
      [eventToRow e1, eventToRow e2, eventToRow e3] := by
    simp [sqliteRows3, SqliteEventStore.append, hd21, hd31, hd32,
      hd21.symm, hd31.symm, hd32.symm, eventToRow]
  have dA : decide (e1.timestamp < e2.timestamp) = true := decide_eq_true h12
  have dB : decide (e2.timestamp < e2.timestamp) = false :=
    decide_eq_false (lt_irrefl _)
  have dC : decide (e3.timestamp < e2.timestamp) = false :=
    decide_eq_false (not_lt.mpr h23.le)
  have dD : decide (e2.timestamp < e1.timestamp) = false :=
    decide_eq_false (not_lt.mpr h12.le)
  have dE : decide (e2.timestamp < e3.timestamp) = true := decide_eq_true h23
  have dF : decide (e2.timestamp ≤ e1.timestamp) = false :=
    decide_eq_false (not_le.mpr h12)
  have dG : decide (e2.timestamp ≤ e2.timestamp) = true :=
    decide_eq_true le_rfl
  have dH : decide (e2.timestamp ≤ e3.timestamp) = true :=
    decide_eq_true h23.le
  have dI : decide (e1.timestamp ≤ e2.timestamp) = true :=
    decide_eq_true h12.le
  have dJ : decide (e3.timestamp ≤ e2.timestamp) = false :=
    decide_eq_false (not_le.mpr h23)
  refine ⟨?_, ?_, ?_, ?_⟩
  · rw [hm]
    simp [InMemoryEventStore.replay, List.filter, dA, dB, dC]
  · rw [hm]
    simp [InMemoryEventStore.replay, List.filter, dD, dB, dE]
  · rw [hr]
    simp [SqliteEventStore.replay, List.filter, SqliteEventStore.orderAscByTs,
      SqliteEventStore.insertAscByTs, eventToRow, rowToEvent, dF, dG, dH, dJ]
  · rw [hr]
    simp [SqliteEventStore.replay, List.filter, SqliteEventStore.orderAscByTs,
      SqliteEventStore.insertAscByTs, eventToRow, rowToEvent, dI, dG, dJ, dF]

/-- Concrete events for the C2 witness: one node, timestamps 1 < 2 < 3. -/
def c2a : MeshEvent := ⟨⟨1⟩, ⟨"n"⟩, "telemetry", 1, 10, [], []⟩

/-- Second C2 witness event (timestamp 2). -/
def c2b : MeshEvent := ⟨⟨2⟩, ⟨"n"⟩, "telemetry", 2, 11, [], []⟩

/-- Third C2 witness event (timestamp 3). -/
def c2c : MeshEvent := ⟨⟨3⟩, ⟨"n"⟩, "telemetry", 3, 12, [], []⟩

/-- Witness for C2 at concrete inputs. -/
theorem C2_replay_window_witness :
    ((memStore3 c2a c2b c2c).replay (some c2b.timestamp) Option.none =
      [c2b, c2c]) ∧
    ((memStore3 c2a c2b c2c).replay Option.none (some c2b.timestamp) =
      [c2a, c2b]) ∧
    (SqliteEventStore.replay (sqliteRows3 c2a c2b c2c) (some c2b.timestamp)
      Option.none = [c2b, c2c]) ∧
    (SqliteEventStore.replay (sqliteRows3 c2a c2b c2c) Option.none
      (some c2b.timestamp) = [c2a, c2b]) :=
  C2_replay_window c2a c2b c2c rfl rfl (by decide) (by decide) (by decide)
    (by decide) (by decide)

/-- C3: projecting a `position` event onto an existing state whose
`last_telemetry` is set leaves `last_telemetry` unchanged, sets
`last_position` to the event's payload, and increments `event_count` by
exactly 1. -/
theorem C3_position_projection_frame (s : NodeState) (tel : Payload)
    (e : MeshEvent)
    (htel : s.last_telemetry = some tel)
    (htype : e.event_type = "position")
    (hnode : e.node_id = s.node_id) :
    (StateProjection.project_state (some s) e).last_telemetry = some tel ∧
    (StateProjection.project_state (some s) e).last_position =
      some e.payload ∧
    (StateProjection.project_state (some s) e).event_count =
      s.event_count + 1 := by
  simp [StateProjection.project_state, StateProjection.update_state, htype,
    htel]

/-- Witness for C3 at concrete inputs. -/
theorem C3_position_projection_frame_witness :
    (StateProjection.project_state
      (some ⟨⟨"n"⟩, 4, 1, 3, some [("battery", .int 90)], Option.none,
        Option.none⟩)
      ⟨⟨9⟩, ⟨"n"⟩, "position", 7, 8, [("latitude", .float 1)], []⟩).last_telemetry =
      some [("battery", .int 90)] ∧
    (StateProjection.project_state
      (some ⟨⟨"n"⟩, 4, 1, 3, some [("battery", .int 90)], Option.none,
        Option.none⟩)
      ⟨⟨9⟩, ⟨"n"⟩, "position", 7, 8, [("latitude", .float 1)], []⟩).last_position =
      some [("latitude", .float 1)] ∧
    (StateProjection.project_state
      (some ⟨⟨"n"⟩, 4, 1, 3, some [("battery", .int 90)], Option.none,
        Option.none⟩)
      ⟨⟨9⟩, ⟨"n"⟩, "position", 7, 8, [("latitude", .float 1)], []⟩).event_count =
      3 + 1 :=
  C3_position_projection_frame
    ⟨⟨"n"⟩, 4, 1, 3, some [("battery", .int 90)], Option.none, Option.none⟩
    [("battery", .int 90)]
    ⟨⟨9⟩, ⟨"n"⟩, "position", 7, 8, [("latitude", .float 1)], []⟩
    rfl rfl rfl

/-- C9: projecting an event whose type is none of telemetry/position/text
onto an existing state changes only `last_seen` (to the event's
timestamp) and `event_count` (+1), leaving all three snapshot fields
untouched; for an unseen node it creates a state with all three snapshot
fields absent, `first_seen = last_seen = timestamp` and count 1. -/
theorem C9_other_type_projection_frame (s : NodeState) (e : MeshEvent)
    (h1 : e.event_type ≠ "telemetry")
    (h2 : e.event_type ≠ "position")
    (h3 : e.event_type ≠ "text") :
    (StateProjection.project_state (some s) e =
      { s with last_seen := e.timestamp,
               event_count := s.event_count + 1 }) ∧
    ((StateProjection.project_state Option.none e).last_telemetry =
      Option.none ∧
     (StateProjection.project_state Option.none e).last_position =
      Option.none ∧
     (StateProjection.project_state Option.none e).last_text =
      Option.none ∧
     (StateProjection.project_state Option.none e).first_seen =
      e.timestamp ∧
     (StateProjection.project_state Option.none e).last_seen =
      e.timestamp ∧
     (StateProjection.project_state Option.none e).event_count = 1) := by
  constructor
  · simp [StateProjection.project_state, StateProjection.update_state, h1,
      h2, h3]
  · simp [StateProjection.project_state, StateProjection.create_state, h1,
      h2, h3]

/-- Witness for C9 at a concrete `node_info` event. -/
theorem C9_other_type_projection_frame_witness :
    (StateProjection.project_state
      (some ⟨⟨"n"⟩, 4, 1, 3, some [("battery", .int 90)],
        some [("latitude", .float 1)], some "hi"⟩)
      ⟨⟨9⟩, ⟨"n"⟩, "node_info", 7, 8, [("node_id", .str "x")], []⟩ =
      { (⟨⟨"n"⟩, 4, 1, 3, some [("battery", .int 90)],
          some [("latitude", .float 1)], some "hi"⟩ : NodeState) with
        last_seen := 7, event_count := 3 + 1 }) ∧
    ((StateProjection.project_state Option.none
      ⟨⟨9⟩, ⟨"n"⟩, "node_info", 7, 8, [("node_id", .str "x")], []⟩).last_telemetry =
      Option.none ∧
     (StateProjection.project_state Option.none
      ⟨⟨9⟩, ⟨"n"⟩, "node_info", 7, 8, [("node_id", .str "x")], []⟩).last_position =
      Option.none ∧
     (StateProjection.project_state Option.none
      ⟨⟨9⟩, ⟨"n"⟩, "node_info", 7, 8, [("node_id", .str "x")], []⟩).last_text =
      Option.none ∧
     (StateProjection.project_state Option.none
      ⟨⟨9⟩, ⟨"n"⟩, "node_info", 7, 8, [("node_id", .str "x")], []⟩).first_seen = 7 ∧
     (StateProjection.project_state Option.none
      ⟨⟨9⟩, ⟨"n"⟩, "node_info", 7, 8, [("node_id", .str "x")], []⟩).last_seen = 7 ∧
     (StateProjection.project_state Option.none
      ⟨⟨9⟩, ⟨"n"⟩, "node_info", 7, 8, [("node_id", .str "x")], []⟩).event_count = 1) :=
  C9_other_type_projection_frame
    ⟨⟨"n"⟩, 4, 1, 3, some [("battery", .int 90)],
      some [("latitude", .float 1)], some "hi"⟩
    ⟨⟨9⟩, ⟨"n"⟩, "node_info", 7, 8, [("node_id", .str "x")], []⟩
    (by decide) (by decide) (by decide)

/-- C4: with max_retries = 3, an event whose append fails on the first
two attempts and succeeds on the third is ultimately recorded with the
error counter unchanged; an event whose append fails on all 3 attempts
is dropped, the error counter is incremented by exactly 1, and the next
event from the source is still processed. -/
theorem C4_retry_error_containment (e1 e2 : MeshEvent) (f : Nat → Bool)
    (d : ℚ) (c : Counters)
    (hf0 : f 0 = true) (hf1 : f 1 = true) (hf2 : f 2 = false) :
    (MeshEventService.service_run (fun _ => f) 3 d [e1] 0
      (InMemoryEventStore.empty, c) =
      ((InMemoryEventStore.empty.append e1).1,
        ⟨c.processed + 1, c.error, c.duplicate⟩)) ∧
    (MeshEventService.service_run
      (fun i => if i = 0 then (fun _ => true) else (fun _ => false)) 3 d
      [e1, e2] 0 (InMemoryEventStore.empty, c) =
      ((InMemoryEventStore.empty.append e2).1,
        ⟨c.processed + 1, c.error + 1, c.duplicate⟩)) := by
  have hr3 : List.range 3 = [0, 1, 2] := rfl
  constructor
  · simp [MeshEventService.service_run, MeshEventService.service_step,
      MeshEventService.process_event_with_retry,
      MeshEventService.retry_attempts, hr3, hf0, hf1, hf2,
      InMemoryEventStore.empty, InMemoryEventStore.event_exists]
  · simp [MeshEventService.service_run, MeshEventService.service_step,
      MeshEventService.process_event_with_retry,
      MeshEventService.retry_attempts, hr3,
      InMemoryEventStore.empty, InMemoryEventStore.event_exists]

/-- Witness for C4 at concrete inputs (failure on attempts 0 and 1
only). -/
theorem C4_retry_error_containment_witness :
    (MeshEventService.service_run (fun _ => fun a => a < 2) 3 1
      [⟨⟨1⟩, ⟨"n"⟩, "text", 1, 1, [], []⟩] 0
      (InMemoryEventStore.empty, ⟨0, 0, 0⟩) =
      ((InMemoryEventStore.empty.append
        ⟨⟨1⟩, ⟨"n"⟩, "text", 1, 1, [], []⟩).1, ⟨0 + 1, 0, 0⟩)) ∧
    (MeshEventService.service_run
      (fun i => if i = 0 then (fun _ => true) else (fun _ => false)) 3 1
      [⟨⟨1⟩, ⟨"n"⟩, "text", 1, 1, [], []⟩,
       ⟨⟨2⟩, ⟨"n"⟩, "text", 2, 2, [], []⟩] 0
      (InMemoryEventStore.empty, ⟨0, 0, 0⟩) =
      ((InMemoryEventStore.empty.append
        ⟨⟨2⟩, ⟨"n"⟩, "text", 2, 2, [], []⟩).1, ⟨0 + 1, 0 + 1, 0⟩)) :=
  C4_retry_error_containment ⟨⟨1⟩, ⟨"n"⟩, "text", 1, 1, [], []⟩
    ⟨⟨2⟩, ⟨"n"⟩, "text", 2, 2, [], []⟩ (fun a => a < 2) 1 ⟨0, 0, 0⟩
    rfl rfl rfl

/-- C5 counterexample: with the default max_retries = 3 and base delay 1,
a store failing every attempt triggers backoff sleeps of exactly 1x and
2x the base delay — there is no third (3x) sleep, because the final
failed attempt re-raises instead of sleeping. This refutes the claim's
sleeps of 1x, 2x and 3x for attempts 1, 2, 3. -/
theorem C5_backoff_counterexample :
    (MeshEventService.process_event_with_retry (fun _ => true) 3 1).2 =
      [1, 2] ∧
    (MeshEventService.process_event_with_retry (fun _ => true) 3 1).2 ≠
      [1, 2, 3] := by
  have h12 : (MeshEventService.process_event_with_retry
      (fun _ => true) 3 1).2 = [1, 2] := by
    show (MeshEventService.retry_attempts (fun _ => true) 3 1
      (List.range 3) []).2 = [1, 2]
    norm_num [MeshEventService.retry_attempts, List.range_succ]
  refine ⟨h12, ?_⟩
  rw [h12]
  simp

/-- C5 as amended: between retry attempts the service sleeps
`retry_delay * attempt_number`, and a sleep follows only a failed
non-final attempt — so with max_retries = 3 the backoff sleeps are
exactly 1x and 2x the base delay (after failed attempts 1 and 2); no
sleep follows attempt 3. -/
theorem C5_backoff_amended (d : ℚ) (f : Nat → Bool)
    (h0 : f 0 = true) (h1 : f 1 = true) :
    (MeshEventService.process_event_with_retry f 3 d).2 = [d, d * 2] := by
  have hr3 : List.range 3 = [0, 1, 2] := rfl
  cases hf2 : f 2 <;>
    simp [MeshEventService.process_event_with_retry,
      MeshEventService.retry_attempts, hr3, h0, h1, hf2] <;>
    norm_num

/-- Witness for the amended C5 at concrete inputs. -/
theorem C5_backoff_amended_witness :
    (MeshEventService.process_event_with_retry (fun _ => true) 3 1).2 =
      [1, 1 * 2] :=
  C5_backoff_amended 1 (fun _ => true) rfl rfl

/-- The C6 counterexample packet: `decoded.portnum = 4` with a position
section carrying a present floating `latitude` of 0.0 alongside integer
microdegree fields. -/
def c6packet : Payload :=
  [("from", .int 7), ("rxTime", .int 100),
   ("decoded", .dict
     [("portnum", .int 4),
      ("position", .dict
        [("latitude", .float 0), ("latitudeI", .int 377749000),
         ("longitude", .float 1), ("longitudeI", .int (-1224194000))])])]

/-- The latitude entry of a translated packet's payload (translation run
with fresh id 0 at instant 200). -/
def translatedLatitude (packet : Payload) : Option (Option PyVal) :=
  (translate_packet 0 200 packet).map fun e => lookupPayload e.payload "latitude"

/-- C6 counterexample: on a port-4 packet whose position carries a
present `latitude` of 0.0, packet translation does NOT use the 0.0
as-is — the Python `or` treats 0.0 as falsy, so the payload latitude is
`latitudeI / 1e7 = 37.7749` instead of 0.0. -/
theorem C6_position_zero_counterexample :
    translatedLatitude c6packet = some (some (.float (377749 / 10000))) ∧
    translatedLatitude c6packet ≠ some (some (.float 0)) := by
  have h : translatedLatitude c6packet =
      some (some (.float (((377749000 : Int) : ℚ) / 10000000))) := rfl
  constructor
  · rw [h]
    norm_num
  · rw [h]
    simp only [ne_eq, Option.some.injEq, PyVal.float.injEq]
    norm_num

/-- C6 as amended: `_decode_position` takes latitude from the floating
`latitude` field only when it is present AND truthy (non-zero); a
present-but-zero (or absent) `latitude` falls back to the integer
microdegree field `latitudeI` divided by 1e7. Stated for a packet whose
fields sit at the top of `decoded` (no nested `position` section);
longitude behaves symmetrically by the same code path. -/
theorem C6_position_amended (decoded : Payload)
    (hpos : lookupPayload decoded "position" = Option.none) :
    (∀ v : ℚ, v ≠ 0 →
      lookupPayload decoded "latitude" = some (.float v) →
      lookupPayload (decode_position decoded) "latitude" =
        some (.float v)) ∧
    (∀ n : Int,
      lookupPayload decoded "latitude" = some (.float 0) →
      lookupPayload decoded "latitudeI" = some (.int n) →
      lookupPayload (decode_position decoded) "latitude" =
        some (.float ((n : ℚ) / 10000000))) := by
  constructor
  · intro v hv hlat
    simp [decode_position, hpos, hasKey, pyGetD, hlat, pyOr, truthy,
      bne_iff_ne, hv, lookupPayload]
  · intro n hlat hlatI
    simp [decode_position, hpos, hasKey, pyGetD, hlat, hlatI, pyOr, truthy,
      pyDiv1e7, lookupPayload]

/-- Witness for the amended C6 at a concrete decoded section with
`latitude = 0.0`. -/
theorem C6_position_amended_witness :
    lookupPayload
      ([("latitude", .float 0), ("latitudeI", .int 377749000)] : Payload)
      "position" = Option.none ∧
    lookupPayload
      (decode_position [("latitude", .float 0), ("latitudeI", .int 377749000)])
      "latitude" = some (.float (((377749000 : Int) : ℚ) / 10000000)) :=
  ⟨rfl, (C6_position_amended
    [("latitude", .float 0), ("latitudeI", .int 377749000)] rfl).2
    377749000 rfl rfl⟩

/-- In a list where exactly one position satisfies `p`, any two members
satisfying `p` are equal. -/
theorem countP_one_all_eq {α : Type} (p : α → Bool) :
    ∀ (l : List α), l.countP p = 1 →
      ∀ a ∈ l, ∀ b ∈ l, p a → p b → a = b := by
  intro l
  induction l with
  | nil => simp
  | cons h t ih =>
    intro hc a ha b hb hpa hpb
    rw [List.countP_cons] at hc
    by_cases hph : p h
    · simp [hph] at hc
      have ht : ∀ x ∈ t, ¬ p x := by
        intro x hx hpx
        have h0 := hc x hx
        simp [h0] at hpx
      rcases List.mem_cons.mp ha with rfl | ha'
      · rcases List.mem_cons.mp hb with rfl | hb'
        · rfl
        · exact absurd hpb (ht b hb')
      · exact absurd hpa (ht a ha')
    · simp [hph] at hc
      rcases List.mem_cons.mp ha with rfl | ha'
      · exact absurd hpa hph
      · rcases List.mem_cons.mp hb with rfl | hb'
        · exact absurd hpb hph
        · exact ih hc a ha' b hb' hpa hpb

/-- C7: writing a NodeState through the relational upsert onto an
already-existing node_id replaces the stored row's `last_seen`,
`event_count`, both snapshot columns and `last_text` with the new
values, while the stored `first_seen` keeps its original value — even
when the supplied state carries a different `first_seen` (no hypothesis
below relates the two). The table keeps exactly one row for the id. -/
theorem C7_upsert_preserves_first_seen (rows : List StateRow)
    (r : StateRow) (state : NodeState)
    (hmem : r ∈ rows) (hkey : r.node_id = state.node_id.value)
    (huniq : rows.countP (fun x => x.node_id == state.node_id.value) = 1) :
    ((SqliteStateStore.upsert_node rows state).countP
      (fun x => x.node_id == state.node_id.value) = 1) ∧
    (∀ r', r' ∈ SqliteStateStore.upsert_node rows state →
      r'.node_id = state.node_id.value →
      r'.first_seen = r.first_seen ∧
      r'.last_seen = state.last_seen ∧
      r'.event_count = state.event_count ∧
      r'.last_telemetry_json = dumpIfTruthy state.last_telemetry ∧
      r'.last_position_json = dumpIfTruthy state.last_position ∧
      r'.last_text = state.last_text) := by
  have hany : (rows.any fun x => x.node_id == state.node_id.value) = true :=
    List.any_eq_true.mpr ⟨r, hmem, by simp [hkey]⟩
  have hpr : (fun x : StateRow => x.node_id == state.node_id.value) r =
      true := by simp [hkey]
  constructor
  · rw [SqliteStateStore.upsert_node, if_pos hany, List.countP_map]
    rw [← huniq]
    apply List.countP_congr
    intro x _
    by_cases hx : x.node_id == state.node_id.value <;>
      simp [Function.comp, hx]
  · intro r' hr' hr'key
    rw [SqliteStateStore.upsert_node, if_pos hany] at hr'
    obtain ⟨x, hx, hfx⟩ := List.mem_map.mp hr'
    by_cases hxk : x.node_id == state.node_id.value
    · have hxr : x = r :=
        countP_one_all_eq _ rows huniq x hx r hmem hxk hpr
      subst hxr
      rw [if_pos hxk] at hfx
      subst hfx
      simp
    · rw [if_neg hxk] at hfx
      subst hfx
      exact absurd (by simp [hr'key]) hxk

/-- Witness for C7 at concrete inputs: one stored row with
`first_seen = 1`, upserted with a state carrying `first_seen = 99`. -/
theorem C7_upsert_preserves_first_seen_witness :
    ((SqliteStateStore.upsert_node
      [⟨"n", 1, 1, 1, Option.none, Option.none, Option.none⟩]
      ⟨⟨"n"⟩, 9, 99, 5, some [("b", .int 1)], Option.none, some "hi"⟩).countP
      (fun x => x.node_id == "n") = 1) ∧
    ((⟨"n", 9, 1, 5, some [("b", .int 1)], Option.none, some "hi"⟩ :
        StateRow).first_seen = 1 ∧
     (⟨"n", 9, 1, 5, some [("b", .int 1)], Option.none, some "hi"⟩ :
        StateRow).last_seen = 9 ∧
     (⟨"n", 9, 1, 5, some [("b", .int 1)], Option.none, some "hi"⟩ :
        StateRow).event_count = 5 ∧
     (⟨"n", 9, 1, 5, some [("b", .int 1)], Option.none, some "hi"⟩ :
        StateRow).last_telemetry_json =
       dumpIfTruthy (some [("b", .int 1)]) ∧
     (⟨"n", 9, 1, 5, some [("b", .int 1)], Option.none, some "hi"⟩ :
        StateRow).last_position_json = dumpIfTruthy Option.none ∧
     (⟨"n", 9, 1, 5, some [("b", .int 1)], Option.none, some "hi"⟩ :
        StateRow).last_text = some "hi") :=
  ⟨(C7_upsert_preserves_first_seen
      [⟨"n", 1, 1, 1, Option.none, Option.none, Option.none⟩]
      ⟨"n", 1, 1, 1, Option.none, Option.none, Option.none⟩
      ⟨⟨"n"⟩, 9, 99, 5, some [("b", .int 1)], Option.none, some "hi"⟩
      (List.mem_singleton.mpr rfl) rfl rfl).1,
   (C7_upsert_preserves_first_seen
      [⟨"n", 1, 1, 1, Option.none, Option.none, Option.none⟩]
      ⟨"n", 1, 1, 1, Option.none, Option.none, Option.none⟩
      ⟨⟨"n"⟩, 9, 99, 5, some [("b", .int 1)], Option.none, some "hi"⟩
      (List.mem_singleton.mpr rfl) rfl rfl).2
     ⟨"n", 9, 1, 5, some [("b", .int 1)], Option.none, some "hi"⟩
     (List.mem_singleton.mpr rfl) rfl⟩

/-- First stored text event of the C8 scenario ("Test message one",
oldest). -/
def c8e1 : MeshEvent :=
  ⟨⟨1⟩, ⟨"nodeA"⟩, "text", 1, 1, [("text", .str "Test message one")], []⟩

/-- Second stored text event of the C8 scenario ("Another test
message"). -/
def c8e2 : MeshEvent :=
  ⟨⟨2⟩, ⟨"nodeB"⟩, "text", 2, 2, [("text", .str "Another test message")], []⟩

/-- Third stored text event of the C8 scenario ("Something else",
newest). -/
def c8e3 : MeshEvent :=
  ⟨⟨3⟩, ⟨"nodeC"⟩, "text", 3, 3, [("text", .str "Something else")], []⟩

/-- The C8 events table, loaded through `append`. -/
def c8rows : List EventRow := sqliteRows3 c8e1 c8e2 c8e3

/-- C8 counterexample: searching "test" over the stored texts returns
the "Test message one" event even though neither its text nor its
stored `payload_json` contains "test" as a case-sensitive substring —
SQLite's `LIKE` folds ASCII case, so the match is case-insensitive,
refuting the claim's "case-sensitive substring" characterisation (its
own expected result, both "Test..." and "Another test...", is only
reachable case-insensitively). -/
theorem C8_search_case_counterexample :
    SqliteEventStore.search_messages c8rows "test" 100 = [c8e2, c8e1] ∧
    specContainsCaseSensitive "test" "Test message one" = false ∧
    specContainsCaseSensitive "test"
      (EventRow.payload_json (eventToRow c8e1)) = false := by
  refine ⟨?_, ?_, ?_⟩ <;> rfl

/-- C8 as amended: `search_messages(query, limit)` returns the stored
text-type events whose JSON-serialized payload contains the query as an
ASCII-case-INsensitive substring (SQLite `LIKE`), most recent first, up
to `limit`; with stored texts "Test message one", "Another test
message", "Something else", searching "test" returns exactly the first
two, and the service layer wraps them in the `Message` view. -/
theorem C8_search_amended :
    MessageQueryService.search_messages c8rows "test" 100 =
      [Message.ofEvent c8e2, Message.ofEvent c8e1] ∧
    SqliteEventStore.search_messages c8rows "test" 100 = [c8e2, c8e1] ∧
    sqliteLikeContains "test"
      (EventRow.payload_json (eventToRow c8e1)) = true ∧
    sqliteLikeContains "test"
      (EventRow.payload_json (eventToRow c8e3)) = false := by
  refine ⟨?_, ?_, ?_, ?_⟩ <;> rfl

/-- C10: in `get_all_metrics`, a boolean-valued payload entry passes the
numeric check (`isinstance(value, (int, float))` accepts booleans, since
Python `bool` subclasses `int`) and contributes a data point of value 1
for true / 0 for false to that key's time series, rather than being
excluded as non-numeric. -/
theorem C10_bool_metric_included (t : Nat) (b : Bool) (key node : String)
    (i : Nat) :
    isNumericPy (.bool b) = true ∧
    TelemetryQueryService.get_all_metrics
      (SqliteEventStore.append []
        ⟨⟨i⟩, ⟨node⟩, "telemetry", t, t, [(key, .bool b)], []⟩)
      node 0 =
      [(key, [⟨t, if b then 1 else 0⟩])] := by
  refine ⟨rfl, ?_⟩
  have hz : decide (0 ≤ t) = true := decide_eq_true (Nat.zero_le t)
  simp [TelemetryQueryService.get_all_metrics,
    TelemetryQueryService.scanEventMetrics,
    TelemetryQueryService.addMetricPoint,
    SqliteEventStore.get_telemetry_series, SqliteEventStore.append,
    SqliteEventStore.orderAscByTs, SqliteEventStore.insertAscByTs,
    eventToRow, rowToEvent, List.filter, hz, isNumericPy, pyToFloat]
